import Mathlib

/-!
Shallow embedding of the label-printing cost calculator (`calculation.py`).

Real-valued quantities are modelled as rationals (`ℚ`); Python `int` values
as `ℤ`/`ℕ`.  Function and constant names follow the source.  The floating
point tolerance `1e-9` used by the source appears as the exact rational
`1 / 1000000000`.
-/

namespace Calculation

/-- Constant `PITCH = 3.175` (mm between gear teeth). -/
def PITCH : ℚ := 3.175

/-- Constant `GAP_MIN = 2.5` (mm). -/
def GAP_MIN : ℚ := 2.5

/-- Constant `GAP_MAX = 4.0` (mm). -/
def GAP_MAX : ℚ := 4.0

/-- Constant `Z_MIN = 70` (teeth). -/
def Z_MIN : ℕ := 70

/-- Constant `Z_MAX = 140` (teeth). -/
def Z_MAX : ℕ := 140

/-- Constant `WORKING_WIDTH = 190` (mm). -/
def WORKING_WIDTH : ℚ := 190

/-- Constant `WIDTH_GAP = 5` (mm). -/
def WIDTH_GAP : ℚ := 5

/-- Constant `WIDTH_WASTE = 10` (mm). -/
def WIDTH_WASTE : ℚ := 10

/-- Constant `MAX_MATERIAL_WIDTH = 200` (mm). -/
def MAX_MATERIAL_WIDTH : ℚ := 200

/-- Constant `BASE_WASTE_LENGTH = 50.0` (m). -/
def BASE_WASTE_LENGTH : ℚ := 50

/-- Constant `WASTE_LENGTH_PER_COLOR = 50.0` (m). -/
def WASTE_LENGTH_PER_COLOR : ℚ := 50

/-- Constant `SETUP_TIME_PER_COLOR_OR_BASE = 30` (min). -/
def SETUP_TIME_PER_COLOR_OR_BASE : ℚ := 30

/-- Constant `CLEANUP_TIME_MIN = 30` (min). -/
def CLEANUP_TIME_MIN : ℚ := 30

/-- The literal `1e-9` used by the source both as the loop-skip guard and as
the gap acceptance tolerance. -/
def tolerance : ℚ := 1 / 1000000000

/-- One entry of `valid_solutions` in `find_cylinder_specifications`:
the dict `{"number_of_teeth_Z": z, "circumference_mm": C,
"templates_N_circumference": n, "gap_G_circumference_mm": gap}`. -/
structure CylinderSolution where
  number_of_teeth_Z : ℕ
  circumference_mm : ℚ
  templates_N_circumference : ℕ
  gap_G_circumference_mm : ℚ
  deriving DecidableEq

/-- The inner loop body of `find_cylinder_specifications` for one tooth count
`z`: `circumference_C = z * PITCH`; skip the tooth count when
`W + GAP_MIN <= 1e-9`; otherwise run `n` over
`range(1, floor(C / (W + GAP_MIN)) + 1)` (with the source's dead `n == 0`
guard kept) and collect the accepted solutions. -/
def solutionsForZ (template_width_W : ℚ) (z : ℕ) : List CylinderSolution :=
  if template_width_W + GAP_MIN ≤ tolerance then []
  else
    ((List.range (Int.toNat ⌊(z : ℚ) * PITCH / (template_width_W + GAP_MIN)⌋)).map
        (· + 1)).filterMap (fun (n : ℕ) =>
      if n = 0 then none
      else if (GAP_MIN - tolerance) ≤ (z : ℚ) * PITCH / (n : ℚ) - template_width_W ∧
          (z : ℚ) * PITCH / (n : ℚ) - template_width_W ≤ (GAP_MAX + tolerance) then
        some { number_of_teeth_Z := z, circumference_mm := (z : ℚ) * PITCH,
               templates_N_circumference := n,
               gap_G_circumference_mm := (z : ℚ) * PITCH / (n : ℚ) - template_width_W }
      else none)

/-- The tooth counts visited by the outer loop: `range(Z_MIN, Z_MAX + 1)`. -/
def zRange : List ℕ := (List.range (Z_MAX - Z_MIN + 1)).map (· + Z_MIN)

/-- The total preorder induced by the sort key
`lambda x: (x["number_of_teeth_Z"], -x["templates_N_circumference"])`:
tooth count ascending, then repeat count descending. -/
def solLE (a b : CylinderSolution) : Bool :=
  decide (a.number_of_teeth_Z < b.number_of_teeth_Z ∨
    (a.number_of_teeth_Z = b.number_of_teeth_Z ∧
      b.templates_N_circumference ≤ a.templates_N_circumference))

/-- Python `round`: round to the nearest integer, ties to the even integer. -/
def pythonRound (q : ℚ) : ℤ :=
  if q - ⌊q⌋ < 1 / 2 then ⌊q⌋
  else if 1 / 2 < q - ⌊q⌋ then ⌊q⌋ + 1
  else if ⌊q⌋ % 2 = 0 then ⌊q⌋ else ⌊q⌋ + 1

/-- Left-pad a digit string with zeros to the requested length. -/
def padZeros (s : String) (d : ℕ) : String :=
  String.mk (List.replicate (d - s.length) '0') ++ s

/-- Fixed-point decimal rendering of a rational, modelling the Python format
specifier `:.3f` / `:.1f` applied to the corresponding float. -/
def formatFixed (q : ℚ) (digits : ℕ) : String :=
  let scaled := pythonRound (q * (10 : ℚ) ^ digits)
  let sign := if scaled < 0 then "-" else ""
  let a := scaled.natAbs
  if digits = 0 then sign ++ toString a
  else sign ++ toString (a / 10 ^ digits) ++ "." ++ padZeros (toString (a % 10 ^ digits)) digits

/-- The diagnostic built when `valid_solutions` is empty:
`f"No cylinder found ({Z_MIN}-{Z_MAX} teeth) for W={W:.3f}mm with
G={GAP_MIN:.1f}-{GAP_MAX:.1f}mm."`. -/
def noSolutionMessage (template_width_W : ℚ) : String :=
  "No cylinder found (" ++ toString Z_MIN ++ "-" ++ toString Z_MAX ++
    " teeth) for W=" ++ formatFixed template_width_W 3 ++ "mm with G=" ++
    formatFixed GAP_MIN 1 ++ "-" ++ formatFixed GAP_MAX 1 ++ "mm."

/-- `find_cylinder_specifications(template_width_W)`: returns
`(best, all_solutions, message)`.  `valid_solutions[0]` after the stable sort
by `(Z, -N)` is modelled as the `head?` of the `mergeSort` (a stable sort) of
the collected list. -/
def find_cylinder_specifications (template_width_W : ℚ) :
    Option CylinderSolution × List CylinderSolution × String :=
  if template_width_W ≤ 0 then (none, [], "Error: Template width must be > 0.")
  else
    let valid_solutions := zRange.flatMap (solutionsForZ template_width_W)
    if valid_solutions = [] then (none, [], noSolutionMessage template_width_W)
    else
      let sorted := valid_solutions.mergeSort solLE
      (sorted.head?, sorted, "Circumference calculation OK.")

/-- `calculate_number_across_width(template_height_H, working_width, width_gap)`. -/
def calculate_number_across_width (template_height_H working_width width_gap : ℚ) : ℤ :=
  if template_height_H ≤ 0 then 0
  else if template_height_H > working_width then 0
  else if template_height_H ≤ working_width ∧
      template_height_H * 2 + width_gap > working_width then 1
  else if template_height_H + width_gap ≤ tolerance then 0
  else ⌊(working_width + width_gap) / (template_height_H + width_gap)⌋

/-- `calculate_material_width(number_across_width_y, template_height_H,
width_gap, width_waste)`. -/
def calculate_material_width (number_across_width_y : ℤ)
    (template_height_H width_gap width_waste : ℚ) : ℚ :=
  if number_across_width_y ≤ 0 then 0
  else (number_across_width_y : ℚ) * template_height_H +
    (max 0 (number_across_width_y - 1) : ℤ) * width_gap + width_waste

/-- `format_time(total_minutes)`.  The rounded value `m = pythonRound
total_minutes` is non-negative in every branch past the first, so Lean's
`/` and `%` on `ℤ` agree with Python's `divmod`. -/
def format_time (total_minutes : ℚ) : String :=
  if total_minutes < 0 then "N/A"
  else if pythonRound total_minutes = 0 then "0 min"
  else if pythonRound total_minutes < 60 then
    toString (pythonRound total_minutes) ++ " min"
  else if pythonRound total_minutes % 60 = 0 then
    toString (pythonRound total_minutes / 60) ++ " h"
  else
    toString (pythonRound total_minutes / 60) ++ " h " ++
      toString (pythonRound total_minutes % 60) ++ " min"

/-- Line 150: `valid_num_colors_for_calc = 0 if is_blank else (num_colors_input
if num_colors_input is not None and num_colors_input >= 1 else 1)`. -/
def valid_num_colors_for_calc (is_blank : Bool) (num_colors_input : ℤ) : ℤ :=
  if is_blank then 0 else if 1 ≤ num_colors_input then num_colors_input else 1

/-- Line 164: `num_colors_for_waste_time = 1 if is_blank else
valid_num_colors_for_calc`. -/
def num_colors_for_waste_time (is_blank : Bool) (valid_num_colors : ℤ) : ℤ :=
  if is_blank then 1 else valid_num_colors

/-- Lines 165-166: the waste length in meters. -/
def waste_length_m (is_blank : Bool) (valid_num_colors : ℤ) : ℚ :=
  if is_blank then BASE_WASTE_LENGTH
  else BASE_WASTE_LENGTH + (valid_num_colors : ℚ) * WASTE_LENGTH_PER_COLOR

/-- Line 174: `setup_time_min = num_colors_for_waste_time *
SETUP_TIME_PER_COLOR_OR_BASE`. -/
def setup_time_min (colors_for_waste_time : ℤ) : ℚ :=
  (colors_for_waste_time : ℚ) * SETUP_TIME_PER_COLOR_OR_BASE

/-- Lines 190-191: material cost, guarded by a positive area and a
non-negative configured price. -/
def total_material_cost_rsd (total_final_area_m2 price_per_m2_input : ℚ) : ℚ :=
  if 0 < total_final_area_m2 ∧ 0 ≤ price_per_m2_input then
    total_final_area_m2 * price_per_m2_input
  else 0

/-- Lines 194-195: machine labor cost, guarded by a positive total time and a
non-negative configured hourly price. -/
def total_machine_labor_cost_rsd (total_time_min machine_labor_price_per_hour : ℚ) : ℚ :=
  if 0 < total_time_min ∧ 0 ≤ machine_labor_price_per_hour then
    (total_time_min / 60) * machine_labor_price_per_hour
  else 0

/-- Lines 208-209: `profit_rsd = total_material_cost_rsd *
profit_coefficient_input` when both are positive, else `0.0`. -/
def profit_rsd (total_material_cost profit_coefficient_input : ℚ) : ℚ :=
  if 0 < total_material_cost ∧ 0 < profit_coefficient_input then
    total_material_cost * profit_coefficient_input
  else 0

/-! Helper lemmas about the geometry search. -/

theorem mem_zRange {z : ℕ} : z ∈ zRange ↔ Z_MIN ≤ z ∧ z ≤ Z_MAX := by
  simp only [zRange, Z_MIN, Z_MAX, List.mem_map, List.mem_range]
  constructor
  · rintro ⟨i, hi, rfl⟩; omega
  · rintro ⟨h1, h2⟩; exact ⟨z - 70, by omega, by omega⟩

theorem mem_solutionsForZ {W : ℚ} {z : ℕ} {s : CylinderSolution}
    (hguard : ¬(W + GAP_MIN ≤ tolerance)) :
    s ∈ solutionsForZ W z ↔
      ∃ n : ℕ, 1 ≤ n ∧ n ≤ Int.toNat ⌊(z : ℚ) * PITCH / (W + GAP_MIN)⌋ ∧
        (GAP_MIN - tolerance) ≤ (z : ℚ) * PITCH / (n : ℚ) - W ∧
        (z : ℚ) * PITCH / (n : ℚ) - W ≤ (GAP_MAX + tolerance) ∧
        s = ⟨z, (z : ℚ) * PITCH, n, (z : ℚ) * PITCH / (n : ℚ) - W⟩ := by
  unfold solutionsForZ
  rw [if_neg hguard]
  simp only [List.mem_filterMap, List.mem_map, List.mem_range]
  constructor
  · rintro ⟨n, ⟨i, hi, rfl⟩, hf⟩
    rw [if_neg (Nat.succ_ne_zero i)] at hf
    by_cases hcond : (GAP_MIN - tolerance) ≤ (z : ℚ) * PITCH / ((i + 1 : ℕ) : ℚ) - W ∧
        (z : ℚ) * PITCH / ((i + 1 : ℕ) : ℚ) - W ≤ (GAP_MAX + tolerance)
    · rw [if_pos hcond] at hf
      exact ⟨i + 1, by omega, by omega, hcond.1, hcond.2, (Option.some.injEq _ _).mp hf |>.symm⟩
    · rw [if_neg hcond] at hf
      exact absurd hf (Option.noConfusion)
  · rintro ⟨n, hn1, hn2, hg1, hg2, rfl⟩
    refine ⟨n, ⟨n - 1, by omega, by omega⟩, ?_⟩
    rw [if_neg (by omega : ¬ n = 0), if_pos ⟨hg1, hg2⟩]

theorem guard_false_of_pos {W : ℚ} (hW : 0 < W) : ¬(W + GAP_MIN ≤ tolerance) := by
  simp only [GAP_MIN, tolerance]
  norm_num
  linarith

theorem find_pos_eq {W : ℚ} (hW : 0 < W) :
    find_cylinder_specifications W =
      (if zRange.flatMap (solutionsForZ W) = [] then
        (none, [], noSolutionMessage W)
      else
        (((zRange.flatMap (solutionsForZ W)).mergeSort solLE).head?,
          (zRange.flatMap (solutionsForZ W)).mergeSort solLE,
          "Circumference calculation OK.")) := by
  unfold find_cylinder_specifications
  rw [if_neg (not_le.mpr hW)]

theorem mem_find_iff {W : ℚ} (hW : 0 < W) {s : CylinderSolution} :
    s ∈ (find_cylinder_specifications W).2.1 ↔
      ∃ z ∈ zRange, s ∈ solutionsForZ W z := by
  rw [find_pos_eq hW]
  by_cases h : zRange.flatMap (solutionsForZ W) = []
  · rw [if_pos h]
    simp only [List.not_mem_nil, false_iff]
    rw [← List.mem_flatMap]
    intro hmem
    rw [h] at hmem
    exact List.not_mem_nil _ hmem
  · rw [if_neg h]
    simp only [List.mem_mergeSort]
    exact List.mem_flatMap

/-- C1: for every template width `W > 0`, every solution in the sequence
returned by `find_cylinder_specifications` has a tooth count `Z` in
`[Z_MIN, Z_MAX]`, a circumference equal to `Z * PITCH`, a repeat count
`N ≥ 1`, and a gap equal to `circumference / N - W` that lies in
`[GAP_MIN - 1e-9, GAP_MAX + 1e-9]`. -/
theorem returned_solutions_sound {W : ℚ} {s : CylinderSolution}
    (hW : 0 < W) (hs : s ∈ (find_cylinder_specifications W).2.1) :
    Z_MIN ≤ s.number_of_teeth_Z ∧ s.number_of_teeth_Z ≤ Z_MAX ∧
    s.circumference_mm = (s.number_of_teeth_Z : ℚ) * PITCH ∧
    1 ≤ s.templates_N_circumference ∧
    s.gap_G_circumference_mm =
      s.circumference_mm / (s.templates_N_circumference : ℚ) - W ∧
    (GAP_MIN - tolerance) ≤ s.gap_G_circumference_mm ∧
    s.gap_G_circumference_mm ≤ (GAP_MAX + tolerance) := by
  rw [mem_find_iff hW] at hs
  obtain ⟨z, hz, hsz⟩ := hs
  rw [mem_solutionsForZ (guard_false_of_pos hW)] at hsz
  obtain ⟨n, hn1, _, hg1, hg2, rfl⟩ := hsz
  obtain ⟨h1, h2⟩ := mem_zRange.mp hz
  exact ⟨h1, h2, rfl, hn1, rfl, hg1, hg2⟩

unseal Rat.add Rat.sub Rat.mul Rat.inv Rat.ofScientific in
/-- Witness for C1: at `W = 314` the search returns the solution
`Z = 100, circumference = 317.5, N = 1, gap = 3.5`, and the soundness
theorem applies to it. -/
theorem returned_solutions_sound_witness :
    (0 : ℚ) < 314 ∧
    (⟨100, 635 / 2, 1, 7 / 2⟩ : CylinderSolution) ∈
      (find_cylinder_specifications 314).2.1 ∧
    (GAP_MIN - tolerance) ≤
      (⟨100, 635 / 2, 1, 7 / 2⟩ : CylinderSolution).gap_G_circumference_mm := by
  have h0 : (0 : ℚ) < 314 := by norm_num
  have hmem : (⟨100, 635 / 2, 1, 7 / 2⟩ : CylinderSolution) ∈
      (find_cylinder_specifications 314).2.1 := by
    rw [mem_find_iff h0]
    decide
  exact ⟨h0, hmem, (returned_solutions_sound h0 hmem).2.2.2.2.2.1⟩

theorem solLE_trans : ∀ a b c : CylinderSolution, solLE a b → solLE b c → solLE a c := by
  intro a b c hab hbc
  simp only [solLE, decide_eq_true_eq] at *
  omega

theorem solLE_total : ∀ a b : CylinderSolution, solLE a b || solLE b a := by
  intro a b
  simp only [solLE, Bool.or_eq_true, decide_eq_true_eq]
  omega

/-- C2: for `W > 0`, when the search succeeds the returned sequence is a
permutation of the collected solution set, is sorted by tooth count
ascending then repeat count descending, its first element is the best
solution, and the best solution has minimal `Z` and, among equal-`Z`
solutions, maximal `N`. -/
theorem best_solution_minimal {W : ℚ} (hW : 0 < W) {b : CylinderSolution}
    {sols : List CylinderSolution} {msg : String}
    (h : find_cylinder_specifications W = (some b, sols, msg)) :
    sols.Perm (zRange.flatMap (solutionsForZ W)) ∧
    sols.head? = some b ∧
    sols.Pairwise (fun a c => solLE a c) ∧
    b ∈ sols ∧
    ∀ s ∈ sols, b.number_of_teeth_Z ≤ s.number_of_teeth_Z ∧
      (b.number_of_teeth_Z = s.number_of_teeth_Z →
        s.templates_N_circumference ≤ b.templates_N_circumference) := by
  rw [find_pos_eq hW] at h
  by_cases hempty : zRange.flatMap (solutionsForZ W) = []
  · rw [if_pos hempty] at h
    exact absurd (congrArg Prod.fst h) (by simp)
  · rw [if_neg hempty] at h
    rw [Prod.mk.injEq, Prod.mk.injEq] at h
    obtain ⟨hh, hl, -⟩ := h
    subst hl
    have hperm := List.mergeSort_perm (zRange.flatMap (solutionsForZ W)) solLE
    have hsorted := List.sorted_mergeSort solLE_trans solLE_total
      (zRange.flatMap (solutionsForZ W))
    refine ⟨hperm, hh, hsorted, ?_, ?_⟩
    · cases hcase : (zRange.flatMap (solutionsForZ W)).mergeSort solLE with
      | nil => rw [hcase] at hh; exact absurd hh (by simp)
      | cons x t =>
        rw [hcase] at hh
        simp only [List.head?_cons, Option.some.injEq] at hh
        rw [hh]
        exact List.mem_cons_self b t
    · intro s hs
      cases hcase : (zRange.flatMap (solutionsForZ W)).mergeSort solLE with
      | nil => rw [hcase] at hh; exact absurd hh (by simp)
      | cons x t =>
        rw [hcase] at hh hs hsorted
        simp only [List.head?_cons, Option.some.injEq] at hh
        subst hh
        rcases List.mem_cons.mp hs with rfl | hst
        · exact ⟨le_refl _, fun _ => le_refl _⟩
        · have hle := (List.pairwise_cons.mp hsorted).1 s hst
          simp only [solLE, decide_eq_true_eq] at hle
          constructor
          · omega
          · intro heq; omega

unseal Rat.add Rat.sub Rat.mul Rat.inv Rat.ofScientific in
/-- Witness for C2 at `W = 314`: the search returns exactly one solution and
the ordering theorem applies to it. -/
theorem best_solution_minimal_witness :
    find_cylinder_specifications 314 =
      (some ⟨100, 635 / 2, 1, 7 / 2⟩, [⟨100, 635 / 2, 1, 7 / 2⟩],
        "Circumference calculation OK.") ∧
    ([⟨100, 635 / 2, 1, 7 / 2⟩] : List CylinderSolution).head? =
      some ⟨100, 635 / 2, 1, 7 / 2⟩ ∧
    (⟨100, 635 / 2, 1, 7 / 2⟩ : CylinderSolution) ∈
      ([⟨100, 635 / 2, 1, 7 / 2⟩] : List CylinderSolution) := by
  have h0 : (0 : ℚ) < 314 := by norm_num
  have hvalid : zRange.flatMap (solutionsForZ 314) = [⟨100, 635 / 2, 1, 7 / 2⟩] := by
    decide
  have hfind : find_cylinder_specifications 314 =
      (some ⟨100, 635 / 2, 1, 7 / 2⟩, [⟨100, 635 / 2, 1, 7 / 2⟩],
        "Circumference calculation OK.") := by
    rw [find_pos_eq h0, hvalid, if_neg (by simp)]
    simp [List.mergeSort]
  have hmin := best_solution_minimal h0 hfind
  exact ⟨hfind, hmin.2.1, hmin.2.2.2.1⟩

unseal Rat.add Rat.sub Rat.mul Rat.inv Rat.ofScientific in
/-- C3 fails as stated: at `W = 108.625 + 1e-9` the pair `Z = 70, N = 2` has
gap `2.5 - 1e-9`, exactly on the tolerated boundary, so it satisfies the
acceptance condition with `Z` in range and `N ≥ 1`; yet the returned
sequence is the single solution `(Z = 106, N = 3)`, because the enumeration
stops at `N ≤ floor(circumference / (W + GAP_MIN)) = 1` for `Z = 70`. -/
theorem completeness_counterexample :
    (0 : ℚ) < 108625 / 1000 + 1 / 1000000000 ∧
    Z_MIN ≤ 70 ∧ 70 ≤ Z_MAX ∧ 1 ≤ 2 ∧
    (GAP_MIN - tolerance) ≤
      (70 : ℚ) * PITCH / (2 : ℚ) - (108625 / 1000 + 1 / 1000000000) ∧
    (70 : ℚ) * PITCH / (2 : ℚ) - (108625 / 1000 + 1 / 1000000000) ≤
      (GAP_MAX + tolerance) ∧
    zRange.flatMap (solutionsForZ (108625 / 1000 + 1 / 1000000000)) =
      [⟨106, 6731 / 20, 3, 6731 / 60 - (108625 / 1000 + 1 / 1000000000)⟩] ∧
    (find_cylinder_specifications (108625 / 1000 + 1 / 1000000000)).2.1 =
      [⟨106, 6731 / 20, 3, 6731 / 60 - (108625 / 1000 + 1 / 1000000000)⟩] ∧
    ¬((106 : ℕ) = 70 ∧ (3 : ℕ) = 2) := by
  have hvalid : zRange.flatMap (solutionsForZ (108625 / 1000 + 1 / 1000000000)) =
      [⟨106, 6731 / 20, 3, 6731 / 60 - (108625 / 1000 + 1 / 1000000000)⟩] := by
    decide
  have hfind : (find_cylinder_specifications (108625 / 1000 + 1 / 1000000000)).2.1 =
      [⟨106, 6731 / 20, 3, 6731 / 60 - (108625 / 1000 + 1 / 1000000000)⟩] := by
    rw [find_pos_eq (by norm_num), hvalid, if_neg (by simp)]
    simp [List.mergeSort]
  exact ⟨by norm_num, by decide, by decide, by decide, by decide, by decide,
    hvalid, hfind, by decide⟩

/-- C3 (amended): completeness holds for the repeat counts the algorithm
enumerates: for every `W > 0`, every pair `(Z, N)` with `Z ∈ [Z_MIN, Z_MAX]`,
`1 ≤ N ≤ floor(Z * PITCH / (W + GAP_MIN))` and gap
`Z * PITCH / N - W ∈ [GAP_MIN - 1e-9, GAP_MAX + 1e-9]` appears in the
returned sequence. -/
theorem enumerated_pairs_complete {W : ℚ} {z n : ℕ} (hW : 0 < W)
    (hz1 : Z_MIN ≤ z) (hz2 : z ≤ Z_MAX) (hn1 : 1 ≤ n)
    (hn2 : n ≤ Int.toNat ⌊(z : ℚ) * PITCH / (W + GAP_MIN)⌋)
    (hg1 : (GAP_MIN - tolerance) ≤ (z : ℚ) * PITCH / (n : ℚ) - W)
    (hg2 : (z : ℚ) * PITCH / (n : ℚ) - W ≤ (GAP_MAX + tolerance)) :
    (⟨z, (z : ℚ) * PITCH, n, (z : ℚ) * PITCH / (n : ℚ) - W⟩ : CylinderSolution) ∈
      (find_cylinder_specifications W).2.1 := by
  rw [mem_find_iff hW]
  exact ⟨z, mem_zRange.mpr ⟨hz1, hz2⟩,
    (mem_solutionsForZ (guard_false_of_pos hW)).mpr ⟨n, hn1, hn2, hg1, hg2, rfl⟩⟩

unseal Rat.add Rat.sub Rat.mul Rat.inv Rat.ofScientific in
/-- Witness for the amended C3 at `W = 314`, `Z = 100`, `N = 1`. -/
theorem enumerated_pairs_complete_witness :
    (⟨100, ((100 : ℕ) : ℚ) * PITCH, 1,
        ((100 : ℕ) : ℚ) * PITCH / ((1 : ℕ) : ℚ) - 314⟩ : CylinderSolution) ∈
      (find_cylinder_specifications 314).2.1 :=
  enumerated_pairs_complete (by norm_num) (by decide) (by decide) (by decide)
    (by decide) (by decide) (by decide)

theorem noSolutionMessage_ne (W : ℚ) :
    noSolutionMessage W ≠ "Error: Template width must be > 0." := by
  unfold noSolutionMessage
  intro h
  have hd := congrArg String.data h
  simp only [String.data_append] at hd
  simp at hd

/-- C4: for every `W ≤ 0` the search fails softly with
`(None, [], "Error: Template width must be > 0.")`; the diagnostic contains
the text `"must be"`, and it is different from the diagnostic returned for
any `W' > 0 whose solution set is empty. -/
theorem invalid_width_diagnostic {W : ℚ} (hW : W ≤ 0) :
    find_cylinder_specifications W =
      (none, [], "Error: Template width must be > 0.") ∧
    (∃ pre post : String,
      "Error: Template width must be > 0." = pre ++ "must be" ++ post) ∧
    ∀ W' : ℚ, 0 < W' → (find_cylinder_specifications W').2.1 = [] →
      (find_cylinder_specifications W').2.2 ≠
        "Error: Template width must be > 0." := by
  refine ⟨?_, ⟨"Error: Template width ", " > 0.", by decide⟩, ?_⟩
  · unfold find_cylinder_specifications
    rw [if_pos hW]
  · intro W' hW' hempty
    rw [find_pos_eq hW'] at hempty ⊢
    by_cases h : zRange.flatMap (solutionsForZ W') = []
    · rw [if_pos h]
      exact noSolutionMessage_ne W'
    · rw [if_neg h] at hempty
      have hperm := List.mergeSort_perm (zRange.flatMap (solutionsForZ W')) solLE
      simp only at hempty
      rw [hempty] at hperm
      exact absurd hperm.symm.eq_nil h

unseal Rat.add Rat.sub Rat.mul Rat.inv Rat.ofScientific in
/-- Witness for C4 at `W = -1` (invalid width) and `W' = 500` (valid width,
empty solution set). -/
theorem invalid_width_diagnostic_witness :
    find_cylinder_specifications (-1) =
      (none, [], "Error: Template width must be > 0.") ∧
    (find_cylinder_specifications 500).2.1 = [] ∧
    (find_cylinder_specifications 500).2.2 ≠
      "Error: Template width must be > 0." := by
  have h1 := invalid_width_diagnostic (show (-1 : ℚ) ≤ 0 by norm_num)
  have hempty : (find_cylinder_specifications 500).2.1 = [] := by
    rw [find_pos_eq (by norm_num : (0 : ℚ) < 500), if_pos (by decide)]
  exact ⟨h1.1, hempty, h1.2.2 500 (by norm_num) hempty⟩

theorem tolerance_pos : (0 : ℚ) < tolerance := by norm_num [tolerance]

unseal Rat.add Rat.sub Rat.mul Rat.inv Rat.ofScientific in
/-- C5 fails as stated: at `H = 1`, usable width `190` and width gap
`-1 + 1e-10` none of the claim's first three cases applies (the label fits,
and so do two), yet the code returns `0` through its unstated degenerate
denominator guard (`H + gap ≤ 1e-9`), while the claim's formula
`floor((usable + gap) / (H + gap))` is a huge positive number. -/
theorem width_count_counterexample :
    ¬((1 : ℚ) ≤ 0) ∧ ¬((1 : ℚ) > 190) ∧
    ¬((1 : ℚ) * 2 + (-1 + 1 / 10000000000) > 190) ∧
    calculate_number_across_width 1 190 (-1 + 1 / 10000000000) = 0 ∧
    ⌊((190 : ℚ) + (-1 + 1 / 10000000000)) / (1 + (-1 + 1 / 10000000000))⌋ ≠ 0 := by
  decide

unseal Rat.add Rat.sub Rat.mul Rat.inv Rat.ofScientific in
/-- C5 (amended): `calculate_number_across_width` returns `0` when
`H ≤ 0` or `H > usable_width`, `1` when one label fits but two do not,
`0` when `H + width_gap ≤ 1e-9` (the code's degenerate-denominator guard,
absent from the claim), and `floor((usable_width + width_gap) /
(H + width_gap))` otherwise; in particular it returns `2` for `H = 76`,
usable width `190` and width gap `5`. -/
theorem number_across_width_spec (H ww g : ℚ) :
    (H ≤ 0 → calculate_number_across_width H ww g = 0) ∧
    (0 < H → ww < H → calculate_number_across_width H ww g = 0) ∧
    (0 < H → H ≤ ww → ww < H * 2 + g → calculate_number_across_width H ww g = 1) ∧
    (0 < H → H ≤ ww → H * 2 + g ≤ ww → H + g ≤ tolerance →
      calculate_number_across_width H ww g = 0) ∧
    (0 < H → H ≤ ww → H * 2 + g ≤ ww → tolerance < H + g →
      calculate_number_across_width H ww g = ⌊(ww + g) / (H + g)⌋) ∧
    calculate_number_across_width 76 190 5 = 2 := by
  refine ⟨?_, ?_, ?_, ?_, ?_, ?_⟩
  · intro h1
    unfold calculate_number_across_width
    rw [if_pos h1]
  · intro h1 h2
    unfold calculate_number_across_width
    rw [if_neg (not_le.mpr h1), if_pos h2]
  · intro h1 h2 h3
    unfold calculate_number_across_width
    rw [if_neg (not_le.mpr h1), if_neg (not_lt.mpr h2), if_pos ⟨h2, h3⟩]
  · intro h1 h2 h3 h4
    unfold calculate_number_across_width
    rw [if_neg (not_le.mpr h1), if_neg (not_lt.mpr h2),
      if_neg (fun h => absurd h.2 (not_lt.mpr h3)), if_pos h4]
  · intro h1 h2 h3 h4
    unfold calculate_number_across_width
    rw [if_neg (not_le.mpr h1), if_neg (not_lt.mpr h2),
      if_neg (fun h => absurd h.2 (not_lt.mpr h3)), if_neg (not_le.mpr h4)]
  · decide

/-- Witness for the amended C5: the general-formula case applied at
`H = 80`, usable width `190`, width gap `5`. -/
theorem number_across_width_spec_witness :
    calculate_number_across_width 80 190 5 = ⌊((190 : ℚ) + 5) / (80 + 5)⌋ ∧
    calculate_number_across_width 76 190 5 = 2 :=
  ⟨(number_across_width_spec 80 190 5).2.2.2.2.1 (by norm_num) (by norm_num)
      (by norm_num) (by norm_num [tolerance]),
   (number_across_width_spec 76 190 5).2.2.2.2.2⟩

theorem number_across_width_nonneg (H ww g : ℚ) :
    0 ≤ calculate_number_across_width H ww g := by
  unfold calculate_number_across_width
  split_ifs with h1 h2 h3 h4
  · exact le_refl 0
  · exact le_refl 0
  · exact zero_le_one
  · exact le_refl 0
  · push_neg at h1 h2 h3 h4
    have hsum := h3 h2
    apply Int.floor_nonneg.mpr
    apply div_nonneg
    · linarith [tolerance_pos]
    · linarith [tolerance_pos]

unseal Rat.ofScientific in
/-- C6 fails as stated: with usable width `190` and width gap `5`, the
heights `H1 = 0 ≤ H2 = 76` give `calculate_number_across_width 0 = 0` but
`calculate_number_across_width 76 = 2`, so the function is not
non-increasing over all heights. -/
theorem monotonicity_counterexample :
    (0 : ℚ) ≤ 76 ∧
    ¬(calculate_number_across_width 76 190 5 ≤
        calculate_number_across_width 0 190 5) := by
  constructor
  · norm_num
  · have h76 : calculate_number_across_width 76 190 5 = 2 :=
      (number_across_width_spec 76 190 5).2.2.2.2.2
    have h0 : calculate_number_across_width 0 190 5 = 0 :=
      (number_across_width_spec 0 190 5).1 (le_refl 0)
    rw [h76, h0]
    norm_num

/-- C6 (amended): for positive heights outside the degenerate-denominator
guard (`1e-9 < H1 + gap`), `calculate_number_across_width` is non-increasing
in the height, for every usable width and every width gap. -/
theorem number_across_width_antitone {ww g H1 H2 : ℚ}
    (hH1 : 0 < H1) (htol : tolerance < H1 + g) (h12 : H1 ≤ H2) :
    calculate_number_across_width H2 ww g ≤ calculate_number_across_width H1 ww g := by
  have htol2 : tolerance < H2 + g := by linarith
  have hH2 : 0 < H2 := lt_of_lt_of_le hH1 h12
  by_cases c2 : ww < H2
  · have hf2 : calculate_number_across_width H2 ww g = 0 := by
      unfold calculate_number_across_width
      rw [if_neg (not_le.mpr hH2), if_pos c2]
    rw [hf2]
    exact number_across_width_nonneg H1 ww g
  by_cases c3 : ww < H2 * 2 + g
  · have hf2 : calculate_number_across_width H2 ww g = 1 := by
      unfold calculate_number_across_width
      rw [if_neg (not_le.mpr hH2), if_neg c2, if_pos ⟨not_lt.mp c2, c3⟩]
    rw [hf2]
    have h1ww : H1 ≤ ww := le_trans h12 (not_lt.mp c2)
    by_cases d3 : ww < H1 * 2 + g
    · have hf1 : calculate_number_across_width H1 ww g = 1 := by
        unfold calculate_number_across_width
        rw [if_neg (not_le.mpr hH1), if_neg (not_lt.mpr h1ww), if_pos ⟨h1ww, d3⟩]
      rw [hf1]
    · have hf1 : calculate_number_across_width H1 ww g =
          ⌊(ww + g) / (H1 + g)⌋ := by
        unfold calculate_number_across_width
        rw [if_neg (not_le.mpr hH1), if_neg (not_lt.mpr h1ww),
          if_neg (fun h => d3 h.2), if_neg (not_le.mpr htol)]
      rw [hf1]
      have htwo : (2 : ℤ) ≤ ⌊(ww + g) / (H1 + g)⌋ := by
        apply Int.le_floor.mpr
        push_cast
        rw [le_div_iff₀ (by linarith [tolerance_pos])]
        push_neg at d3
        linarith
      linarith
  · have h2ww : H2 ≤ ww := not_lt.mp c2
    have h2sum : H2 * 2 + g ≤ ww := not_lt.mp c3
    have hf2 : calculate_number_across_width H2 ww g =
        ⌊(ww + g) / (H2 + g)⌋ := by
      unfold calculate_number_across_width
      rw [if_neg (not_le.mpr hH2), if_neg c2,
        if_neg (fun h => absurd h.2 c3), if_neg (not_le.mpr htol2)]
    have h1ww : H1 ≤ ww := le_trans h12 h2ww
    have hf1 : calculate_number_across_width H1 ww g =
        ⌊(ww + g) / (H1 + g)⌋ := by
      unfold calculate_number_across_width
      rw [if_neg (not_le.mpr hH1), if_neg (not_lt.mpr h1ww),
        if_neg (fun h => by linarith [h.2]), if_neg (not_le.mpr htol)]
    rw [hf1, hf2]
    apply Int.floor_le_floor
    have hnum : (0 : ℚ) ≤ ww + g := by linarith [tolerance_pos]
    have hden1 : (0 : ℚ) < H1 + g := lt_trans tolerance_pos htol
    gcongr

/-- Witness for the amended C6 at `H1 = 76`, `H2 = 80`, usable width `190`,
width gap `5`. -/
theorem number_across_width_antitone_witness :
    calculate_number_across_width 80 190 5 ≤
      calculate_number_across_width 76 190 5 :=
  number_across_width_antitone (by norm_num)
    (by norm_num [tolerance]) (by norm_num)

/-- C7: for a blank job, whatever color count is selected (and whatever the
quantity, which these source lines never read), the waste length is the base
constant `50` m alone, the color count used for waste and time purposes is
`1`, and the setup time is `1 × 30 = 30` minutes. -/
theorem blank_job_waste_setup (num_colors_input quantity : ℤ) :
    waste_length_m true (valid_num_colors_for_calc true num_colors_input) =
      BASE_WASTE_LENGTH ∧
    BASE_WASTE_LENGTH = 50 ∧
    num_colors_for_waste_time true (valid_num_colors_for_calc true num_colors_input) = 1 ∧
    setup_time_min
      (num_colors_for_waste_time true (valid_num_colors_for_calc true num_colors_input)) =
      30 ∧
    quantity = quantity := by
  refine ⟨rfl, rfl, rfl, ?_, rfl⟩
  norm_num [setup_time_min, num_colors_for_waste_time,
    SETUP_TIME_PER_COLOR_OR_BASE]

/-- C8: profit equals `material_cost * profit_coefficient` when both are
positive and `0` otherwise; hence it is `0` for zero material cost, and for
positive material cost it scales linearly in the (positive) coefficient. -/
theorem profit_spec (mc c : ℚ) :
    (0 < mc → 0 < c → profit_rsd mc c = mc * c) ∧
    (¬(0 < mc ∧ 0 < c) → profit_rsd mc c = 0) ∧
    (mc = 0 → profit_rsd mc c = 0) ∧
    (0 < mc → ∀ k c0 : ℚ, 0 < k → 0 < c0 →
      profit_rsd mc (k * c0) = k * profit_rsd mc c0) := by
  refine ⟨?_, ?_, ?_, ?_⟩
  · intro h1 h2
    unfold profit_rsd
    rw [if_pos ⟨h1, h2⟩]
  · intro h
    unfold profit_rsd
    rw [if_neg h]
  · intro h
    unfold profit_rsd
    rw [if_neg (fun hc => by rw [h] at hc; exact lt_irrefl 0 hc.1)]
  · intro h1 k c0 hk hc0
    unfold profit_rsd
    rw [if_pos ⟨h1, mul_pos hk hc0⟩, if_pos ⟨h1, hc0⟩]
    ring

/-- Witness for C8 at material cost `2` and coefficients `3`, `5 * 3`. -/
theorem profit_spec_witness :
    profit_rsd 2 3 = 2 * 3 ∧ profit_rsd 0 3 = 0 ∧
    profit_rsd 2 (5 * 3) = 5 * profit_rsd 2 3 :=
  ⟨(profit_spec 2 3).1 (by norm_num) (by norm_num),
   (profit_spec 0 3).2.2.1 rfl,
   (profit_spec 2 3).2.2.2 (by norm_num) 5 3 (by norm_num) (by norm_num)⟩

/-- C9: `format_time` renders a negative input as `"N/A"`; otherwise it
rounds the input to a nearest integer `m` (within one half) and renders
`"0 min"` for zero, `"M min"` under an hour, `"H h"` for an exact positive
multiple of `60`, and `"H h M min"` otherwise. -/
theorem format_time_spec (q : ℚ) :
    |q - (pythonRound q : ℚ)| ≤ 1 / 2 ∧
    (q < 0 → format_time q = "N/A") ∧
    (0 ≤ q → pythonRound q = 0 → format_time q = "0 min") ∧
    (0 ≤ q → 0 < pythonRound q → pythonRound q < 60 →
      format_time q = toString (pythonRound q) ++ " min") ∧
    (0 ≤ q → 0 < pythonRound q → (60 : ℤ) ∣ pythonRound q →
      format_time q = toString (pythonRound q / 60) ++ " h") ∧
    (0 ≤ q → 60 ≤ pythonRound q → ¬((60 : ℤ) ∣ pythonRound q) →
      format_time q =
        toString (pythonRound q / 60) ++ " h " ++
          toString (pythonRound q % 60) ++ " min") := by
  refine ⟨?_, ?_, ?_, ?_, ?_, ?_⟩
  · unfold pythonRound
    split_ifs with h1 h2 h3 <;>
      (rw [abs_le]; constructor <;> push_cast <;>
        linarith [Int.floor_le q, Int.lt_floor_add_one q])
  · intro h
    unfold format_time
    rw [if_pos h]
  · intro h h0
    unfold format_time
    rw [if_neg (not_lt.mpr h), if_pos h0]
  · intro h h0 h60
    unfold format_time
    rw [if_neg (not_lt.mpr h), if_neg (by omega), if_pos h60]
  · intro h h0 hdvd
    have h60 : 60 ≤ pythonRound q := Int.le_of_dvd h0 hdvd
    unfold format_time
    rw [if_neg (not_lt.mpr h), if_neg (by omega), if_neg (by omega),
      if_pos (by omega)]
  · intro h h60 hndvd
    unfold format_time
    rw [if_neg (not_lt.mpr h), if_neg (by omega), if_neg (by omega),
      if_neg (fun hc => hndvd (Int.dvd_of_emod_eq_zero hc))]

unseal Rat.add Rat.sub Rat.mul Rat.inv Rat.ofScientific in
/-- Witness for C9 at `90` minutes and `-5` minutes. -/
theorem format_time_spec_witness :
    format_time 90 = "1 h 30 min" ∧ format_time (-5) = "N/A" := by
  constructor
  · have hr : pythonRound 90 = 90 := by decide
    have h := (format_time_spec 90).2.2.2.2.2 (by norm_num)
      (by rw [hr]; norm_num) (by rw [hr]; decide)
    rw [h, hr]
    decide
  · exact (format_time_spec (-5)).2.1 (by norm_num)

/-- C10: the material cost and the machine-labor cost are never negative;
a negative configured price per m² forces a zero material cost and a
negative configured hourly labor price forces a zero machine-labor cost,
through the `price ≥ 0` guards in the code. -/
theorem cost_guards_nonneg (area price time labor : ℚ) :
    0 ≤ total_material_cost_rsd area price ∧
    0 ≤ total_machine_labor_cost_rsd time labor ∧
    (price < 0 → total_material_cost_rsd area price = 0) ∧
    (labor < 0 → total_machine_labor_cost_rsd time labor = 0) := by
  refine ⟨?_, ?_, ?_, ?_⟩
  · unfold total_material_cost_rsd
    split_ifs with h
    · exact mul_nonneg h.1.le h.2
    · exact le_refl 0
  · unfold total_machine_labor_cost_rsd
    split_ifs with h
    · exact mul_nonneg (div_nonneg h.1.le (by norm_num)) h.2
    · exact le_refl 0
  · intro h
    unfold total_material_cost_rsd
    rw [if_neg (fun hc => absurd hc.2 (not_le.mpr h))]
  · intro h
    unfold total_machine_labor_cost_rsd
    rw [if_neg (fun hc => absurd hc.2 (not_le.mpr h))]

/-- Witness for C10 at area `1`, price `-1`, time `1`, labor price `-1`. -/
theorem cost_guards_nonneg_witness :
    total_material_cost_rsd 1 (-1) = 0 ∧
    total_machine_labor_cost_rsd 1 (-1) = 0 ∧
    0 ≤ total_material_cost_rsd 1 (-1) :=
  ⟨(cost_guards_nonneg 1 (-1) 1 (-1)).2.2.1 (by norm_num),
   (cost_guards_nonneg 1 (-1) 1 (-1)).2.2.2 (by norm_num),
   (cost_guards_nonneg 1 (-1) 1 (-1)).1⟩

end Calculation
